import Mathlib

/-!
Verification of the HTTP service in `src/index.js` (an Express app) against
its natural-language specification: the four GET routes, the
`express.json()` body middleware, port and environment resolution, and
startup behaviour.

The embedding is shallow: the request pipeline is a pure function from the
process environment, a clock state and a request to a response.  `new
Date().toISOString()` is modelled by the ECMA-262 date algorithms
(DayFromYear, YearFromTime, MonthFromTime, DateFromTime and the time-of-day
divisions) over milliseconds since the Unix epoch, producing the
`YYYY-MM-DDTHH:mm:ss.sssZ` string that V8 prints for years 1970-9999.
-/

/-! ## ECMA-262 date arithmetic (for `Date.prototype.toISOString`) -/

/-- Gregorian leap-year test, as in ECMA-262 DaysInYear. -/
def isLeap (y : Nat) : Bool :=
  (y % 4 == 0 && y % 100 != 0) || y % 400 == 0

/-- 1 in a leap year, 0 otherwise (ECMA-262 InLeapYear). -/
def leapBit (y : Nat) : Nat := if isLeap y then 1 else 0

/-- ECMA-262 DaysInYear. -/
def daysInYear (y : Nat) : Nat := 365 + leapBit y

/-- Days from 1970-01-01 to Jan 1 of year `1970 + x`, summing year lengths;
agrees with ECMA-262 DayFromYear (`365 (y-1970) + ⌊(y-1969)/4⌋ - ⌊(y-1901)/100⌋
+ ⌊(y-1601)/400⌋`) on `y ≥ 1970`. -/
def dayFromYear1970 : Nat → Nat
  | 0 => 0
  | x + 1 => dayFromYear1970 x + daysInYear (1970 + x)

/-- ECMA-262 DayFromYear, for years `≥ 1970`. -/
def dayFromYear (y : Nat) : Nat := dayFromYear1970 (y - 1970)

/-- Search loop for ECMA-262 YearFromTime: walk up from 1970 while the next
year still starts at or before day `d`; `fuel` bounds the walk. -/
def findYearGo : Nat → Nat → Nat → Nat
  | 0, y, _ => y
  | fuel + 1, y, d => if dayFromYear (y + 1) ≤ d then findYearGo fuel (y + 1) d else y

/-- ECMA-262 YearFromTime on epoch days (total: 8200 years of fuel cover
every day below year 10000, the 4-digit `toISOString` range). -/
def yearFromDay (d : Nat) : Nat := findYearGo 8200 1970 d

/-- ECMA-262 DayWithinYear. -/
def dayWithinYear (d : Nat) : Nat := d - dayFromYear (yearFromDay d)

/-- Cumulative days before 1-based month `m`, `leap` the leap bit: the
thresholds of ECMA-262 MonthFromTime. -/
def monthStart (leap m : Nat) : Nat :=
  match m with
  | 1 => 0
  | 2 => 31
  | 3 => 59 + leap
  | 4 => 90 + leap
  | 5 => 120 + leap
  | 6 => 151 + leap
  | 7 => 181 + leap
  | 8 => 212 + leap
  | 9 => 243 + leap
  | 10 => 273 + leap
  | 11 => 304 + leap
  | 12 => 334 + leap
  | _ => 365 + leap

/-- ECMA-262 MonthFromTime, 1-based as printed by `toISOString`. -/
def monthFromDwy (leap dwy : Nat) : Nat :=
  if dwy < 31 then 1
  else if dwy < 59 + leap then 2
  else if dwy < 90 + leap then 3
  else if dwy < 120 + leap then 4
  else if dwy < 151 + leap then 5
  else if dwy < 181 + leap then 6
  else if dwy < 212 + leap then 7
  else if dwy < 243 + leap then 8
  else if dwy < 273 + leap then 9
  else if dwy < 304 + leap then 10
  else if dwy < 334 + leap then 11
  else 12

/-- ECMA-262 DateFromTime (day of the month, 1-based). -/
def dateFromDwy (leap dwy : Nat) : Nat :=
  dwy - monthStart leap (monthFromDwy leap dwy) + 1

/-- Milliseconds per day. -/
def msPerDay : Nat := 86400000

/-- First millisecond of year 10000; strictly below it `toISOString`
prints a 4-digit year. -/
def isoBound : Nat := dayFromYear 10000 * msPerDay

/-- The 1-based month of epoch day `d` (ECMA-262 MonthFromTime + 1). -/
def monthOfDay (d : Nat) : Nat :=
  monthFromDwy (leapBit (yearFromDay d)) (dayWithinYear d)

/-- The day of the month of epoch day `d` (ECMA-262 DateFromTime). -/
def dateOfDay (d : Nat) : Nat :=
  dateFromDwy (leapBit (yearFromDay d)) (dayWithinYear d)

/-- ECMA-262 MakeDay: epoch day of calendar fields. -/
def dayOfCivil (y m d : Nat) : Nat :=
  dayFromYear y + monthStart (leapBit y) m + (d - 1)

/-! ### Correctness of the date conversion -/

/-- One year advances `dayFromYear` by the length of that year. -/
theorem dayFromYear_succ (y : Nat) (h : 1970 ≤ y) :
    dayFromYear (y + 1) = dayFromYear y + daysInYear y := by
  obtain ⟨x, rfl⟩ : ∃ x, y = 1970 + x := ⟨y - 1970, by omega⟩
  show dayFromYear1970 (1970 + x + 1 - 1970) = dayFromYear1970 (1970 + x - 1970) + _
  have e1 : 1970 + x + 1 - 1970 = x + 1 := by omega
  have e2 : 1970 + x - 1970 = x := by omega
  rw [e1, e2]
  rfl

/-- Each year is at least 365 days long. -/
theorem daysInYear_ge (y : Nat) : 365 ≤ daysInYear y := by
  unfold daysInYear leapBit
  split <;> omega

theorem daysInYear_le (y : Nat) : daysInYear y ≤ 366 := by
  unfold daysInYear leapBit
  split <;> omega

/-- `dayFromYear1970` grows by at least 365 per year. -/
theorem dayFromYear1970_lower (x : Nat) : 365 * x ≤ dayFromYear1970 x := by
  induction x with
  | zero => simp [dayFromYear1970]
  | succ n ih =>
      have := daysInYear_ge (1970 + n)
      unfold dayFromYear1970
      omega

/-- `dayFromYear` is monotone on years `≥ 1970`. -/
theorem dayFromYear_mono (a b : Nat) (ha : 1970 ≤ a) (hab : a ≤ b) :
    dayFromYear a ≤ dayFromYear b := by
  induction b with
  | zero => omega
  | succ n ih =>
      rcases Nat.lt_or_ge a (n + 1) with hlt | hge
      · have h1 : 1970 ≤ n := by omega
        have h2 := dayFromYear_succ n h1
        have := ih (by omega)
        omega
      · have : a = n + 1 := by omega
        subst this
        exact Nat.le_refl _

/-- The year-search loop is correct: starting inside the sought window and
given enough fuel, it lands on the year containing day `d`. -/
theorem findYearGo_spec (fuel : Nat) : ∀ y d : Nat, 1970 ≤ y →
    dayFromYear y ≤ d → d < dayFromYear (y + fuel) →
    1970 ≤ findYearGo fuel y d ∧
    dayFromYear (findYearGo fuel y d) ≤ d ∧
    d < dayFromYear (findYearGo fuel y d + 1) := by
  induction fuel with
  | zero =>
      intro y d hy hlo hhi
      rw [Nat.add_zero] at hhi
      exact absurd hlo (by omega)
  | succ n ih =>
      intro y d hy hlo hhi
      simp only [findYearGo]
      by_cases hc : dayFromYear (y + 1) ≤ d
      · rw [if_pos hc]
        refine ih (y + 1) d (by omega) hc ?_
        have e : y + 1 + n = y + (n + 1) := by omega
        rw [e]
        exact hhi
      · rw [if_neg hc]
        exact ⟨hy, hlo, by omega⟩

/-- `yearFromDay` finds the year containing epoch day `d`, for all days
below year 10000. -/
theorem yearFromDay_spec (d : Nat) (h : d < dayFromYear 10000) :
    1970 ≤ yearFromDay d ∧ dayFromYear (yearFromDay d) ≤ d ∧
    d < dayFromYear (yearFromDay d + 1) ∧ yearFromDay d ≤ 9999 := by
  have h0 : dayFromYear 1970 = 0 := rfl
  have hm : dayFromYear 10000 ≤ dayFromYear (1970 + 8200) :=
    dayFromYear_mono _ _ (by omega) (by omega)
  have spec := findYearGo_spec 8200 1970 d (Nat.le_refl _) (by omega) (by omega)
  have hdef : yearFromDay d = findYearGo 8200 1970 d := rfl
  rw [← hdef] at spec
  refine ⟨spec.1, spec.2.1, spec.2.2, ?_⟩
  by_contra hy
  push_neg at hy
  have : dayFromYear 10000 ≤ dayFromYear (yearFromDay d) :=
    dayFromYear_mono _ _ (by omega) (by omega)
  omega

/-- The day-within-year is below the year length. -/
theorem dayWithinYear_lt (d : Nat) (h : d < dayFromYear 10000) :
    dayWithinYear d < daysInYear (yearFromDay d) := by
  obtain ⟨h1, h2, h3, h4⟩ := yearFromDay_spec d h
  have := dayFromYear_succ (yearFromDay d) h1
  unfold dayWithinYear
  omega

set_option maxRecDepth 4000 in
/-- ECMA-262 month/date tables are mutually inverse on a year, with the
month in 1..12 and the date in 1..31. -/
theorem month_table : ∀ lb : Nat, lb < 2 → ∀ dwy : Nat, dwy < 365 + lb →
    monthStart lb (monthFromDwy lb dwy) ≤ dwy ∧
    monthStart lb (monthFromDwy lb dwy) + (dateFromDwy lb dwy - 1) = dwy ∧
    1 ≤ monthFromDwy lb dwy ∧ monthFromDwy lb dwy ≤ 12 ∧
    1 ≤ dateFromDwy lb dwy ∧ dateFromDwy lb dwy ≤ 31 := by decide

theorem leapBit_le (y : Nat) : leapBit y ≤ 1 := by
  unfold leapBit
  split <;> omega

/-- Round trip of the calendar conversion on the 4-digit ISO range,
together with the field ranges. -/
theorem civil_roundtrip (d : Nat) (h : d < dayFromYear 10000) :
    dayOfCivil (yearFromDay d) (monthOfDay d) (dateOfDay d) = d ∧
    1970 ≤ yearFromDay d ∧ yearFromDay d ≤ 9999 ∧
    1 ≤ monthOfDay d ∧ monthOfDay d ≤ 12 ∧
    1 ≤ dateOfDay d ∧ dateOfDay d ≤ 31 := by
  obtain ⟨h1, h2, h3, h4⟩ := yearFromDay_spec d h
  have hdwy := dayWithinYear_lt d h
  have hlb := leapBit_le (yearFromDay d)
  have hdwy2 : dayWithinYear d < 365 + leapBit (yearFromDay d) := by
    unfold daysInYear at hdwy
    omega
  have hlt2 : leapBit (yearFromDay d) < 2 := by omega
  have ht := month_table (leapBit (yearFromDay d)) hlt2 (dayWithinYear d) hdwy2
  obtain ⟨t1, t2, t3, t4, t5, t6⟩ := ht
  have hdw : dayWithinYear d = d - dayFromYear (yearFromDay d) := rfl
  unfold monthOfDay dateOfDay dayOfCivil
  refine ⟨by omega, h1, h4, t3, t4, t5, t6⟩

/-! ## ISO-8601 formatting and parsing -/

/-- ECMA-262 HourFromTime (non-negative time values). -/
def hourOfMs (t : Nat) : Nat := t / 3600000 % 24

/-- ECMA-262 MinFromTime. -/
def minuteOfMs (t : Nat) : Nat := t / 60000 % 60

/-- ECMA-262 SecFromTime. -/
def secondOfMs (t : Nat) : Nat := t / 1000 % 60

/-- ECMA-262 msFromTime. -/
def milliOfMs (t : Nat) : Nat := t % 1000

/-- ECMA-262 Day(t). -/
def epochDayOf (t : Nat) : Nat := t / msPerDay

/-- The ASCII digit character of `n % 10`. -/
def digitChar (n : Nat) : Char := Char.ofNat (48 + n % 10)

/-- Two-digit zero-padded decimal, as a character list. -/
def pad2 (n : Nat) : List Char := [digitChar (n / 10), digitChar n]

/-- Three-digit zero-padded decimal. -/
def pad3 (n : Nat) : List Char := [digitChar (n / 100), digitChar (n / 10), digitChar n]

/-- Four-digit zero-padded decimal. -/
def pad4 (n : Nat) : List Char :=
  [digitChar (n / 1000), digitChar (n / 100), digitChar (n / 10), digitChar n]

/-- The characters of `new Date(t).toISOString()` for a non-negative epoch
millisecond count `t` below year 10000: `YYYY-MM-DDTHH:mm:ss.sssZ`. -/
def isoChars (t : Nat) : List Char :=
  pad4 (yearFromDay (epochDayOf t)) ++
  '-' :: pad2 (monthOfDay (epochDayOf t)) ++
  '-' :: pad2 (dateOfDay (epochDayOf t)) ++
  'T' :: pad2 (hourOfMs t) ++
  ':' :: pad2 (minuteOfMs t) ++
  ':' :: pad2 (secondOfMs t) ++
  '.' :: pad3 (milliOfMs t) ++ ['Z']

/-- `Date.prototype.toISOString` on epoch milliseconds. -/
def toISOString (t : Nat) : String := String.mk (isoChars t)

/-- The numeric value of an ASCII digit character. -/
def digitVal? (c : Char) : Option Nat :=
  if 48 ≤ c.toNat ∧ c.toNat ≤ 57 then some (c.toNat - 48) else none

/-- Read exactly `k` decimal digits, most significant first. -/
def readDigits : Nat → List Char → Nat → Option (Nat × List Char)
  | 0, l, acc => some (acc, l)
  | _ + 1, [], _ => none
  | k + 1, c :: l, acc =>
    match digitVal? c with
    | some v => readDigits k l (acc * 10 + v)
    | none => none

/-- Consume one expected character. -/
def expectChar (c : Char) : List Char → Option (List Char)
  | [] => none
  | x :: l => if x = c then some l else none

/-- Final stage of the ISO parser: the trailing `Z`, end of input, field
range checks, and the denoted epoch millisecond count. -/
def isoFin (y mo da h mi se ms : Nat) (l : List Char) : Option Nat :=
  match expectChar 'Z' l with
  | some r =>
    if r = [] ∧ 1970 ≤ y ∧ 1 ≤ mo ∧ mo ≤ 12 ∧ 1 ≤ da ∧ da ≤ 31 ∧
        h < 24 ∧ mi < 60 ∧ se < 60 then
      some (dayOfCivil y mo da * msPerDay + h * 3600000 + mi * 60000 + se * 1000 + ms)
    else none
  | none => none

/-- ISO parser stage: `.sss` then the final stage. -/
def isoMsStage (y mo da h mi se : Nat) (l : List Char) : Option Nat :=
  match expectChar '.' l with
  | some r =>
    match readDigits 3 r 0 with
    | some (ms, r2) => isoFin y mo da h mi se ms r2
    | none => none
  | none => none

/-- ISO parser stage: `:ss`. -/
def isoSecStage (y mo da h mi : Nat) (l : List Char) : Option Nat :=
  match expectChar ':' l with
  | some r =>
    match readDigits 2 r 0 with
    | some (se, r2) => isoMsStage y mo da h mi se r2
    | none => none
  | none => none

/-- ISO parser stage: `:mm`. -/
def isoMinStage (y mo da h : Nat) (l : List Char) : Option Nat :=
  match expectChar ':' l with
  | some r =>
    match readDigits 2 r 0 with
    | some (mi, r2) => isoSecStage y mo da h mi r2
    | none => none
  | none => none

/-- ISO parser stage: `THH`. -/
def isoHourStage (y mo da : Nat) (l : List Char) : Option Nat :=
  match expectChar 'T' l with
  | some r =>
    match readDigits 2 r 0 with
    | some (h, r2) => isoMinStage y mo da h r2
    | none => none
  | none => none

/-- ISO parser stage: `-DD`. -/
def isoDayStage (y mo : Nat) (l : List Char) : Option Nat :=
  match expectChar '-' l with
  | some r =>
    match readDigits 2 r 0 with
    | some (da, r2) => isoHourStage y mo da r2
    | none => none
  | none => none

/-- ISO parser stage: `-MM`. -/
def isoMonthStage (y : Nat) (l : List Char) : Option Nat :=
  match expectChar '-' l with
  | some r =>
    match readDigits 2 r 0 with
    | some (mo, r2) => isoDayStage y mo r2
    | none => none
  | none => none

/-- Validating parser for the 24-character ISO-8601 UTC timestamp
`YYYY-MM-DDTHH:mm:ss.sssZ`: checks the shape and field ranges and returns
the denoted epoch millisecond count. -/
def parseIsoChars (l : List Char) : Option Nat :=
  match readDigits 4 l 0 with
  | some (y, r) => isoMonthStage y r
  | none => none

/-- ISO timestamp validity-and-denotation on strings. -/
def parseISOString (s : String) : Option Nat := parseIsoChars s.data

/-! ### Formatting/parsing round trip -/

theorem digit_table : ∀ k : Nat, k < 10 → digitVal? (Char.ofNat (48 + k)) = some k := by
  decide

theorem digitVal_digitChar (n : Nat) : digitVal? (digitChar n) = some (n % 10) :=
  digit_table (n % 10) (Nat.mod_lt n (by omega))

theorem expectChar_self (c : Char) (l : List Char) : expectChar c (c :: l) = some l := by
  show (if c = c then some l else none) = some l
  rw [if_pos rfl]

theorem readDigits_cons (k : Nat) (c : Char) (l : List Char) (acc v : Nat)
    (h : digitVal? c = some v) :
    readDigits (k + 1) (c :: l) acc = readDigits k l (acc * 10 + v) := by
  show (match digitVal? c with
    | some v => readDigits k l (acc * 10 + v)
    | none => none) = readDigits k l (acc * 10 + v)
  rw [h]

theorem readDigits_pad2 (n : Nat) (rest : List Char) (h : n < 100) :
    readDigits 2 (pad2 n ++ rest) 0 = some (n, rest) := by
  show readDigits 2 (digitChar (n / 10) :: digitChar n :: rest) 0 = some (n, rest)
  rw [readDigits_cons _ _ _ _ _ (digitVal_digitChar _),
    readDigits_cons _ _ _ _ _ (digitVal_digitChar _)]
  show some ((0 * 10 + n / 10 % 10) * 10 + n % 10, rest) = some (n, rest)
  have e : (0 * 10 + n / 10 % 10) * 10 + n % 10 = n := by omega
  rw [e]

theorem readDigits_pad3 (n : Nat) (rest : List Char) (h : n < 1000) :
    readDigits 3 (pad3 n ++ rest) 0 = some (n, rest) := by
  show readDigits 3 (digitChar (n / 100) :: digitChar (n / 10) :: digitChar n :: rest) 0 =
    some (n, rest)
  rw [readDigits_cons _ _ _ _ _ (digitVal_digitChar _),
    readDigits_cons _ _ _ _ _ (digitVal_digitChar _),
    readDigits_cons _ _ _ _ _ (digitVal_digitChar _)]
  show some (((0 * 10 + n / 100 % 10) * 10 + n / 10 % 10) * 10 + n % 10, rest) = some (n, rest)
  have e : ((0 * 10 + n / 100 % 10) * 10 + n / 10 % 10) * 10 + n % 10 = n := by omega
  rw [e]

theorem readDigits_pad4 (n : Nat) (rest : List Char) (h : n < 10000) :
    readDigits 4 (pad4 n ++ rest) 0 = some (n, rest) := by
  show readDigits 4
    (digitChar (n / 1000) :: digitChar (n / 100) :: digitChar (n / 10) :: digitChar n :: rest) 0 =
    some (n, rest)
  rw [readDigits_cons _ _ _ _ _ (digitVal_digitChar _),
    readDigits_cons _ _ _ _ _ (digitVal_digitChar _),
    readDigits_cons _ _ _ _ _ (digitVal_digitChar _),
    readDigits_cons _ _ _ _ _ (digitVal_digitChar _)]
  show some ((((0 * 10 + n / 1000 % 10) * 10 + n / 100 % 10) * 10 + n / 10 % 10) * 10 + n % 10,
    rest) = some (n, rest)
  have e : (((0 * 10 + n / 1000 % 10) * 10 + n / 100 % 10) * 10 + n / 10 % 10) * 10 + n % 10 =
      n := by omega
  rw [e]

theorem parseIso_pad4 (y : Nat) (rest : List Char) (hy : y < 10000) :
    parseIsoChars (pad4 y ++ rest) = isoMonthStage y rest := by
  unfold parseIsoChars
  simp only [readDigits_pad4 y rest hy]

theorem isoMonthStage_eq (y mo : Nat) (rest : List Char) (hmo : mo < 100) :
    isoMonthStage y (Char.ofNat 45 :: (pad2 mo ++ rest)) = isoDayStage y mo rest := by
  unfold isoMonthStage
  simp only [expectChar_self, readDigits_pad2 mo rest hmo]

theorem isoDayStage_eq (y mo da : Nat) (rest : List Char) (hda : da < 100) :
    isoDayStage y mo (Char.ofNat 45 :: (pad2 da ++ rest)) = isoHourStage y mo da rest := by
  unfold isoDayStage
  simp only [expectChar_self, readDigits_pad2 da rest hda]

theorem isoHourStage_eq (y mo da h : Nat) (rest : List Char) (hh : h < 100) :
    isoHourStage y mo da (Char.ofNat 84 :: (pad2 h ++ rest)) = isoMinStage y mo da h rest := by
  unfold isoHourStage
  simp only [expectChar_self, readDigits_pad2 h rest hh]

theorem isoMinStage_eq (y mo da h mi : Nat) (rest : List Char) (hmi : mi < 100) :
    isoMinStage y mo da h (Char.ofNat 58 :: (pad2 mi ++ rest)) =
      isoSecStage y mo da h mi rest := by
  unfold isoMinStage
  simp only [expectChar_self, readDigits_pad2 mi rest hmi]

theorem isoSecStage_eq (y mo da h mi se : Nat) (rest : List Char) (hse : se < 100) :
    isoSecStage y mo da h mi (Char.ofNat 58 :: (pad2 se ++ rest)) =
      isoMsStage y mo da h mi se rest := by
  unfold isoSecStage
  simp only [expectChar_self, readDigits_pad2 se rest hse]

theorem isoMsStage_eq (y mo da h mi se ms : Nat) (rest : List Char) (hms : ms < 1000) :
    isoMsStage y mo da h mi se (Char.ofNat 46 :: (pad3 ms ++ rest)) =
      isoFin y mo da h mi se ms rest := by
  unfold isoMsStage
  simp only [expectChar_self, readDigits_pad3 ms rest hms]

theorem isoFin_eq (y mo da h mi se ms : Nat) (h1 : 1970 ≤ y) (h2 : 1 ≤ mo) (h3 : mo ≤ 12)
    (h4 : 1 ≤ da) (h5 : da ≤ 31) (h6 : h < 24) (h7 : mi < 60) (h8 : se < 60) :
    isoFin y mo da h mi se ms [Char.ofNat 90] =
      some (dayOfCivil y mo da * msPerDay + h * 3600000 + mi * 60000 + se * 1000 + ms) := by
  unfold isoFin
  simp only [expectChar_self]
  rw [if_pos ⟨trivial, h1, h2, h3, h4, h5, h6, h7, h8⟩]

/-- `toISOString` output parses back (so it is a well-formed ISO-8601 UTC
timestamp) and denotes exactly the formatted instant, for every epoch
millisecond count below year 10000. -/
theorem parseISO_toISO (t : Nat) (h : t < isoBound) :
    parseISOString (toISOString t) = some t := by
  have hd : epochDayOf t < dayFromYear 10000 := by
    unfold epochDayOf msPerDay
    unfold isoBound msPerDay at h
    omega
  obtain ⟨hrt, hy1, hy2, hm1, hm2, hd1, hd2⟩ := civil_roundtrip (epochDayOf t) hd
  have hh : hourOfMs t < 24 := by unfold hourOfMs; omega
  have hmi : minuteOfMs t < 60 := by unfold minuteOfMs; omega
  have hse : secondOfMs t < 60 := by unfold secondOfMs; omega
  have hms : milliOfMs t < 1000 := by unfold milliOfMs; omega
  show parseIsoChars (isoChars t) = some t
  unfold isoChars
  simp only [List.cons_append, List.append_assoc]
  rw [parseIso_pad4 _ _ (by omega)]
  rw [isoMonthStage_eq _ _ _ (by omega)]
  rw [isoDayStage_eq _ _ _ _ (by omega)]
  rw [isoHourStage_eq _ _ _ _ _ (by omega)]
  rw [isoMinStage_eq _ _ _ _ _ _ (by omega)]
  rw [isoSecStage_eq _ _ _ _ _ _ _ (by omega)]
  rw [isoMsStage_eq _ _ _ _ _ _ _ _ (by omega)]
  rw [isoFin_eq _ _ _ _ _ _ _ hy1 hm1 hm2 hd1 hd2 hh hmi hse]
  have e : dayOfCivil (yearFromDay (epochDayOf t)) (monthOfDay (epochDayOf t))
      (dateOfDay (epochDayOf t)) * msPerDay + hourOfMs t * 3600000 + minuteOfMs t * 60000 +
      secondOfMs t * 1000 + milliOfMs t = t := by
    rw [hrt]
    unfold epochDayOf hourOfMs minuteOfMs secondOfMs milliOfMs msPerDay
    omega
  rw [e]

/-! ## JSON acceptor, modelling `JSON.parse` acceptance as used by the
`express.json()` body middleware (RFC 8259 grammar; the parsed value is
never used by any route handler, so only acceptance is modelled). -/

/-- JSON insignificant whitespace. -/
def isJsonWs (c : Char) : Bool :=
  c.toNat = 32 ∨ c.toNat = 9 ∨ c.toNat = 10 ∨ c.toNat = 13

def skipWs : List Char → List Char
  | [] => []
  | c :: l => if isJsonWs c then skipWs l else c :: l

def isDigitChar (c : Char) : Bool := 48 ≤ c.toNat ∧ c.toNat ≤ 57

def isHexChar (c : Char) : Bool :=
  isDigitChar c ∨ (97 ≤ c.toNat ∧ c.toNat ≤ 102) ∨ (65 ≤ c.toNat ∧ c.toNat ≤ 70)

/-- Scan a JSON string body after the opening quote, through the closing
quote; `fuel` bounds the scan. -/
def scanStringRest : Nat → List Char → Option (List Char)
  | 0, _ => none
  | _ + 1, [] => none
  | fuel + 1, c :: l =>
    if c.toNat = 34 then some l
    else if c.toNat = 92 then
      match l with
      | [] => none
      | e :: l2 =>
        if e.toNat = 34 ∨ e.toNat = 92 ∨ e.toNat = 47 ∨ e.toNat = 98 ∨ e.toNat = 102 ∨
            e.toNat = 110 ∨ e.toNat = 114 ∨ e.toNat = 116 then
          scanStringRest fuel l2
        else if e.toNat = 117 then
          match l2 with
          | a :: b :: c2 :: d :: l3 =>
            if isHexChar a ∧ isHexChar b ∧ isHexChar c2 ∧ isHexChar d then
              scanStringRest fuel l3
            else none
          | _ => none
        else none
    else if c.toNat < 32 then none
    else scanStringRest fuel l

/-- Greedily consume leading decimal digits, returning their count. -/
def spanDigits : List Char → Nat × List Char
  | [] => (0, [])
  | c :: l =>
    if isDigitChar c then
      ((spanDigits l).1 + 1, (spanDigits l).2)
    else (0, c :: l)

/-- JSON `int` part, after any minus sign: `0` or a nonzero digit followed
by more digits. -/
def scanInt : List Char → Option (List Char)
  | [] => none
  | c :: l =>
    if c.toNat = 48 then some l
    else if 49 ≤ c.toNat ∧ c.toNat ≤ 57 then some (spanDigits l).2
    else none

/-- JSON optional `frac` part. -/
def scanFrac (l : List Char) : Option (List Char) :=
  match l with
  | [] => some []
  | c :: r =>
    if c.toNat = 46 then
      match spanDigits r with
      | (0, _) => none
      | (_ + 1, rest) => some rest
    else some (c :: r)

/-- JSON optional `exp` part. -/
def scanExp (l : List Char) : Option (List Char) :=
  match l with
  | [] => some []
  | c :: r =>
    if c.toNat = 101 ∨ c.toNat = 69 then
      match (match r with
             | s :: r2 => if s.toNat = 43 ∨ s.toNat = 45 then r2 else r
             | [] => ([] : List Char)) with
      | r3 =>
        match spanDigits r3 with
        | (0, _) => none
        | (_ + 1, rest) => some rest
    else some (c :: r)

/-- JSON `number`, with optional leading minus sign. -/
def scanNumber (l : List Char) : Option (List Char) :=
  match (match l with
         | c :: r => if c.toNat = 45 then r else l
         | [] => ([] : List Char)) with
  | l1 =>
    match scanInt l1 with
    | some l2 =>
      match scanFrac l2 with
      | some l3 => scanExp l3
      | none => none
    | none => none

mutual

/-- Consume one JSON value (after optional leading whitespace). -/
def jsonVal : Nat → List Char → Option (List Char)
  | 0, _ => none
  | fuel + 1, l =>
    match skipWs l with
    | [] => none
    | c :: r =>
      if c.toNat = 123 then jsonObj fuel r
      else if c.toNat = 91 then jsonArr fuel r
      else if c.toNat = 34 then scanStringRest (r.length + 1) r
      else if c.toNat = 110 then
        match r with
        | u :: l1 :: l2 :: r2 =>
          if u.toNat = 117 ∧ l1.toNat = 108 ∧ l2.toNat = 108 then some r2 else none
        | _ => none
      else if c.toNat = 116 then
        match r with
        | r1 :: u :: e :: r2 =>
          if r1.toNat = 114 ∧ u.toNat = 117 ∧ e.toNat = 101 then some r2 else none
        | _ => none
      else if c.toNat = 102 then
        match r with
        | a :: l1 :: s1 :: e :: r2 =>
          if a.toNat = 97 ∧ l1.toNat = 108 ∧ s1.toNat = 115 ∧ e.toNat = 101 then some r2
          else none
        | _ => none
      else scanNumber (c :: r)

/-- Members of a JSON object, right after the opening brace. -/
def jsonObj : Nat → List Char → Option (List Char)
  | 0, _ => none
  | fuel + 1, l =>
    match skipWs l with
    | [] => none
    | c :: r =>
      if c.toNat = 125 then some r
      else if c.toNat = 34 then
        match scanStringRest (r.length + 1) r with
        | some r2 =>
          match skipWs r2 with
          | c2 :: r3 =>
            if c2.toNat = 58 then
              match jsonVal fuel r3 with
              | some r4 => jsonObjMore fuel r4
              | none => none
            else none
          | [] => none
        | none => none
      else none

/-- After one object member: a comma and another member, or the closing
brace. -/
def jsonObjMore : Nat → List Char → Option (List Char)
  | 0, _ => none
  | fuel + 1, l =>
    match skipWs l with
    | [] => none
    | c :: r =>
      if c.toNat = 125 then some r
      else if c.toNat = 44 then
        match skipWs r with
        | c2 :: r2 =>
          if c2.toNat = 34 then
            match scanStringRest (r2.length + 1) r2 with
            | some r3 =>
              match skipWs r3 with
              | c3 :: r4 =>
                if c3.toNat = 58 then
                  match jsonVal fuel r4 with
                  | some r5 => jsonObjMore fuel r5
                  | none => none
                else none
              | [] => none
            | none => none
          else none
        | [] => none
      else none

/-- Elements of a JSON array, right after the opening bracket. -/
def jsonArr : Nat → List Char → Option (List Char)
  | 0, _ => none
  | fuel + 1, l =>
    match skipWs l with
    | [] => none
    | c :: r =>
      if c.toNat = 93 then some r
      else
        match jsonVal fuel (c :: r) with
        | some r2 => jsonArrMore fuel r2
        | none => none

/-- After one array element: a comma and another element, or the closing
bracket. -/
def jsonArrMore : Nat → List Char → Option (List Char)
  | 0, _ => none
  | fuel + 1, l =>
    match skipWs l with
    | [] => none
    | c :: r =>
      if c.toNat = 93 then some r
      else if c.toNat = 44 then
        match jsonVal fuel r with
        | some r2 => jsonArrMore fuel r2
        | none => none
      else none

end

/-- `JSON.parse` acceptance: one JSON value followed only by whitespace. -/
def jsonParseOk (s : String) : Bool :=
  match jsonVal (s.data.length + 1) s.data with
  | some rest => (skipWs rest).isEmpty
  | none => false

/-- The `strict` first-character check of the `express.json()` middleware:
the first non-whitespace byte must open an object or an array. -/
def strictFirstCharOk (s : String) : Bool :=
  match skipWs s.data with
  | c :: _ => c.toNat = 123 ∨ c.toNat = 91
  | [] => false

/-! ## The HTTP service of `src/index.js` -/

/-- JSON values produced by the route handlers. -/
inductive Json where
  | str : String → Json
  | num : Int → Json
  | obj : List (String × Json) → Json

/-- An incoming HTTP request.  Header names are taken lowercased, as Node
exposes them. -/
structure HttpRequest where
  method : String
  path : String
  query : String
  headers : List (String × String)
  body : String

/-- A response body: a JSON document (`res.json`) or text/HTML (the
framework's own error pages). -/
structure HttpResponse where
  status : Nat
  body : Json ⊕ String

/-- The process clock: epoch milliseconds at process start and at the
moment the request is handled. -/
structure World where
  startMs : Nat
  nowMs : Nat

/-- `Math.floor(process.uptime())`: whole seconds since process start. -/
def uptimeSecs (w : World) : Nat := (w.nowMs - w.startMs) / 1000

/-- The process environment variables the program reads. -/
structure Env where
  PORT : Option String
  NODE_ENV : Option String

/-- Handler of `app.get('/')`. -/
def rootHandler (_ : World) : Json :=
  .obj [("message", .str "Hello from root API")]

/-- Handler of `app.get('/health')`. -/
def healthHandler (w : World) : Json :=
  .obj [("status", .str "ok"), ("uptime", .num (uptimeSecs w))]

/-- Handler of `app.get('/test-ci')`. -/
def testCiHandler (w : World) : Json :=
  .obj [("message", .str "Bhai!...mai bhi deploy hogya. badhai ho bhai"),
        ("timestamp", .str (toISOString w.nowMs))]

/-- Handler of `app.get('/test-docker-ecr-app-runner')`. -/
def testDockerHandler (w : World) : Json :=
  .obj [("message", .str "Sab sahi hai"),
        ("timestamp", .str (toISOString w.nowMs))]

/-- The route table registered on `app`, in registration order: method,
exact path, handler. -/
def routes : List (String × String × (World → Json)) :=
  [("GET", "/", rootHandler),
   ("GET", "/health", healthHandler),
   ("GET", "/test-ci", testCiHandler),
   ("GET", "/test-docker-ecr-app-runner", testDockerHandler)]

/-- Case-sensitive lookup of a single request header (lowercased name). -/
def headerValue (req : HttpRequest) (name : String) : Option String :=
  match req.headers.find? (fun h => h.1 == name) with
  | some h => some h.2
  | none => none

/-- ASCII lowercasing of one character. -/
def toLowerChar (c : Char) : Char :=
  if 65 ≤ c.toNat ∧ c.toNat ≤ 90 then Char.ofNat (c.toNat + 32) else c

/-- ASCII lowercasing of a string. -/
def toLowerStr (s : String) : String := String.mk (s.data.map toLowerChar)

def isSpaceTab (c : Char) : Bool := c.toNat = 32 ∨ c.toNat = 9

/-- Strip leading and trailing spaces/tabs. -/
def trimChars (l : List Char) : List Char :=
  ((l.dropWhile isSpaceTab).reverse.dropWhile isSpaceTab).reverse

/-- The media type of a `content-type` value: the part before any `;`,
trimmed and lowercased (as the `type-is` library normalises it). -/
def mediaTypeOf (ct : String) : String :=
  String.mk ((trimChars (ct.data.takeWhile (fun c => c.toNat != 59))).map toLowerChar)

/-- Whether the request declares a JSON body: the media type of its
`content-type` header is `application/json` (parameters such as
`charset=...` are allowed after `;`, and the comparison is
case-insensitive, matching `express.json()`'s default `type` option). -/
def hasJsonContentType (req : HttpRequest) : Bool :=
  match headerValue req "content-type" with
  | some ct => mediaTypeOf ct == "application/json"
  | none => false

/-- Split a character list at every `;`. -/
def splitOnSemi : List Char → List (List Char)
  | [] => [[]]
  | c :: r =>
    if c.toNat = 59 then [] :: splitOnSemi r
    else
      match splitOnSemi r with
      | seg :: rest => (c :: seg) :: rest
      | [] => [[c]]

/-- Strip one pair of surrounding double quotes. -/
def stripQuotes (v : List Char) : List Char :=
  if 2 ≤ v.length ∧ v.head? = some (Char.ofNat 34) ∧ v.getLast? = some (Char.ofNat 34) then
    (v.drop 1).dropLast
  else v

/-- Find a `charset=...` parameter among content-type parameter segments
(trimmed, lowercased, quotes stripped). -/
def findCharset : List (List Char) → Option (List Char)
  | [] => none
  | seg :: rest =>
    if ((trimChars seg).map toLowerChar).take 8 = "charset=".data then
      some (stripQuotes (((trimChars seg).map toLowerChar).drop 8))
    else findCharset rest

/-- The charset parameter of a `content-type` value, if any. -/
def charsetOf (ct : String) : Option (List Char) :=
  match splitOnSemi ct.data with
  | [] => none
  | _ :: params => findCharset params

/-- `body-parser`'s charset gate: the charset (defaulting to utf-8) must
begin with `utf-`, otherwise the middleware answers 415. -/
def charsetOk (req : HttpRequest) : Bool :=
  match headerValue req "content-type" with
  | none => true
  | some ct =>
    match charsetOf ct with
    | none => true
    | some cs => cs.take 4 == "utf-".data

/-- `body-parser`'s content-encoding gate: `identity`, `gzip` and
`deflate` (lowercased) are handled, anything else is answered 415.  The
model's `body` field always holds the decoded entity. -/
def encodingOk (req : HttpRequest) : Bool :=
  match headerValue req "content-encoding" with
  | none => true
  | some e =>
    e.data.map toLowerChar == "identity".data ∨
    e.data.map toLowerChar == "gzip".data ∨
    e.data.map toLowerChar == "deflate".data

/-- `express.json()`'s default size limit, 100kb in bytes. -/
def jsonBodyLimit : Nat := 102400

/-- Outcome of the `express.json()` middleware on a request.  A request
without a body or without a JSON media type passes through untouched;
otherwise, in `body-parser`'s order: unsupported charset (415),
unsupported content encoding (415), entity over the 100kb limit (413),
then strict-mode `JSON.parse` (400 on failure). -/
inductive MiddlewareOutcome where
  | ok : MiddlewareOutcome
  | badJson : MiddlewareOutcome
  | tooLarge : MiddlewareOutcome
  | unsupportedCharset : MiddlewareOutcome
  | unsupportedEncoding : MiddlewareOutcome
deriving DecidableEq

def expressJsonOutcome (req : HttpRequest) : MiddlewareOutcome :=
  if hasJsonContentType req ∧ req.body ≠ "" then
    if charsetOk req then
      if encodingOk req then
        if req.body.utf8ByteSize ≤ jsonBodyLimit then
          if strictFirstCharOk req.body && jsonParseOk req.body then .ok else .badJson
        else .tooLarge
      else .unsupportedEncoding
    else .unsupportedCharset
  else .ok

/-- Whether the `express.json()` middleware passes the request on to the
router (rather than answering a 400/413/415 itself). -/
def expressJsonOk (req : HttpRequest) : Bool :=
  match expressJsonOutcome req with
  | .ok => true
  | _ => false

/-- The framework's standard not-found response. -/
def notFoundResp (req : HttpRequest) : HttpResponse :=
  { status := 404, body := .inr ("Cannot " ++ req.method ++ " " ++ req.path) }

/-- Strip a single trailing slash from a non-root path, as the router's
default non-strict matching tolerates. -/
def stripTrailingSlash (s : String) : String :=
  if 1 < s.data.length ∧ s.data.getLast? = some (Char.ofNat 47) then
    String.mk s.data.dropLast
  else s

/-- Express's default layer matching for an exact route path: the request
path matches case-insensitively, with one optional trailing slash
(`caseSensitive: false`, `strict: false`). -/
def pathMatches (routePath reqPath : String) : Bool :=
  stripTrailingSlash (toLowerStr reqPath) == routePath

/-- The route a GET or HEAD request dispatches to: HEAD requests fall back
to GET handlers when no HEAD handler is registered, as in Express. -/
def findDispatchRoute (req : HttpRequest) :=
  routes.find? (fun r => r.1 == "GET" && pathMatches r.2.1 req.path)

/-- The full request pipeline of `src/index.js`: the `express.json()`
middleware, then the Express router over the registered routes — GET and
HEAD dispatch to the GET handlers (for HEAD the entity is computed but not
transmitted on the wire), OPTIONS on a registered path is answered 200
with the allowed methods, anything else falls through to the framework's
404.  `env` is the process environment (available to the code, read by no
handler); `req.path` is the request-target's path exactly as sent on the
wire. -/
def handle (_env : Env) (w : World) (req : HttpRequest) : HttpResponse :=
  match expressJsonOutcome req with
  | .ok =>
    if req.method == "GET" || req.method == "HEAD" then
      match findDispatchRoute req with
      | some r => { status := 200, body := .inl (r.2.2 w) }
      | none => notFoundResp req
    else if req.method == "OPTIONS" then
      if routes.any (fun r => pathMatches r.2.1 req.path) then
        { status := 200, body := .inr "GET,HEAD" }
      else notFoundResp req
    else notFoundResp req
  | .badJson => { status := 400, body := .inr "Bad Request" }
  | .tooLarge => { status := 413, body := .inr "Payload Too Large" }
  | .unsupportedCharset => { status := 415, body := .inr "Unsupported Media Type" }
  | .unsupportedEncoding => { status := 415, body := .inr "Unsupported Media Type" }

/-- Look up a top-level field of a JSON object response body. -/
def jsonField (resp : HttpResponse) (name : String) : Option Json :=
  match resp.body with
  | .inl (.obj fields) =>
    match fields.find? (fun f => f.1 == name) with
    | some f => some f.2
    | none => none
  | _ => none

/-! ### Port and environment resolution, startup -/

/-- A JavaScript value that is either a string or a number, as produced by
`process.env.PORT || 9001`. -/
inductive JsStrNum where
  | str : String → JsStrNum
  | num : Nat → JsStrNum

/-- `process.env.PORT || defaultPort`: JavaScript `||` takes the fallback
exactly when the left side is falsy, and the falsy strings are precisely
the empty string (an unset variable is `undefined`, also falsy). -/
def portValue (defaultPort : Nat) (envPORT : Option String) : JsStrNum :=
  match envPORT with
  | none => .num defaultPort
  | some s => if s = "" then .num defaultPort else .str s

/-- Decimal digit fold. -/
def decNatChars : List Char → Nat → Option Nat
  | [], acc => some acc
  | c :: l, acc =>
    match digitVal? c with
    | some v => decNatChars l (acc * 10 + v)
    | none => none

/-- The numeric value of a nonempty all-digit string. -/
def decimalNat? (s : String) : Option Nat :=
  match s.data with
  | [] => none
  | l => decNatChars l 0

/-- The port `app.listen` binds: a numeric value directly, a numeric
string by decimal value; `none` models a string that denotes no number
(Node would fail to listen). -/
def listenPort : JsStrNum → Option Nat
  | .num n => some n
  | .str s => decimalNat? s

/-- The port bound at startup for a given default and `PORT` variable. -/
def resolvedPort (defaultPort : Nat) (envPORT : Option String) : Option Nat :=
  listenPort (portValue defaultPort envPORT)

/-- Canonical decimal notation of a natural number. -/
def decimalChars (n : Nat) : List Char :=
  if n < 10 then [digitChar n] else decimalChars (n / 10) ++ [digitChar (n % 10)]
  termination_by n
  decreasing_by exact Nat.div_lt_self (by omega) (by omega)

def decimalString (n : Nat) : String := String.mk (decimalChars n)

/-- String interpolation of the `PORT` value into the startup log line. -/
def portDisplay : JsStrNum → String
  | .str s => s
  | .num n => decimalString n

/-- `process.env.NODE_ENV || 'development'`. -/
def envLabel (e : Option String) : String :=
  match e with
  | none => "development"
  | some s => if s = "" then "development" else s

/-- Outcome of `app.listen`: a listening server that logged the callback's
lines, or process termination with an exit code.  Modelled from the spec:
Node's `listen` failure (for instance the port already in use) raises an
unhandled `error` event, which terminates the process with exit code 1;
the repository installs no error handler and no retry. -/
inductive Startup where
  | listening : List String → Startup
  | exited : Nat → Startup

/-- Startup of `src/index.js`: bind the resolved port (`bindOk` says
whether the operating system accepts the bind), then log the two lines of
the listen callback. -/
def startup (env : Env) (bindOk : Bool) : Startup :=
  if bindOk then
    .listening ["Server is running on port " ++ portDisplay (portValue 9001 env.PORT),
                "Environment: " ++ envLabel env.NODE_ENV]
  else
    .exited 1

/-- Whether a startup outcome accepts connections. -/
def acceptsRequests : Startup → Bool
  | .listening _ => true
  | .exited _ => false

/-! ### Pipeline lemmas -/

theorem outcome_of_ok (req : HttpRequest) (hb : expressJsonOk req = true) :
    expressJsonOutcome req = MiddlewareOutcome.ok := by
  unfold expressJsonOk at hb
  cases h : expressJsonOutcome req <;>
    first
      | rfl
      | (rw [h] at hb; exact Bool.noConfusion hb)

theorem handle_matched (env : Env) (w : World) (req : HttpRequest) (m p : String)
    (f : World → Json) (hb : expressJsonOutcome req = MiddlewareOutcome.ok)
    (hm : req.method = "GET" ∨ req.method = "HEAD")
    (hfind : findDispatchRoute req = some (m, p, f)) :
    handle env w req = { status := 200, body := .inl (f w) } := by
  unfold handle
  rw [hb]
  rcases hm with hm | hm <;> rw [hm, hfind] <;> rfl

theorem handle_nofind (env : Env) (w : World) (req : HttpRequest)
    (hb : expressJsonOutcome req = MiddlewareOutcome.ok)
    (hm : req.method = "GET" ∨ req.method = "HEAD")
    (hfind : findDispatchRoute req = none) :
    handle env w req = notFoundResp req := by
  unfold handle
  rw [hb]
  rcases hm with hm | hm <;> rw [hm, hfind] <;> rfl

theorem handle_options_match (env : Env) (w : World) (req : HttpRequest)
    (hb : expressJsonOutcome req = MiddlewareOutcome.ok)
    (hm : req.method = "OPTIONS")
    (hany : routes.any (fun r => pathMatches r.2.1 req.path) = true) :
    handle env w req = { status := 200, body := .inr "GET,HEAD" } := by
  unfold handle
  rw [hb, hm, hany]
  rfl

theorem handle_options_nomatch (env : Env) (w : World) (req : HttpRequest)
    (hb : expressJsonOutcome req = MiddlewareOutcome.ok)
    (hm : req.method = "OPTIONS")
    (hany : routes.any (fun r => pathMatches r.2.1 req.path) = false) :
    handle env w req = notFoundResp req := by
  unfold handle
  rw [hb, hm, hany]
  rfl

theorem handle_other_method (env : Env) (w : World) (req : HttpRequest)
    (hb : expressJsonOutcome req = MiddlewareOutcome.ok)
    (h1 : (req.method == "GET") = false) (h2 : (req.method == "HEAD") = false)
    (h3 : (req.method == "OPTIONS") = false) :
    handle env w req = notFoundResp req := by
  unfold handle
  rw [hb, h1, h2, h3]
  rfl

theorem handle_badjson (env : Env) (w : World) (req : HttpRequest)
    (hb : expressJsonOutcome req = MiddlewareOutcome.badJson) :
    handle env w req = { status := 400, body := .inr "Bad Request" } := by
  unfold handle
  rw [hb]

theorem handle_toolarge (env : Env) (w : World) (req : HttpRequest)
    (hb : expressJsonOutcome req = MiddlewareOutcome.tooLarge) :
    handle env w req = { status := 413, body := .inr "Payload Too Large" } := by
  unfold handle
  rw [hb]

theorem handle_unsupcharset (env : Env) (w : World) (req : HttpRequest)
    (hb : expressJsonOutcome req = MiddlewareOutcome.unsupportedCharset) :
    handle env w req = { status := 415, body := .inr "Unsupported Media Type" } := by
  unfold handle
  rw [hb]

theorem handle_unsupencoding (env : Env) (w : World) (req : HttpRequest)
    (hb : expressJsonOutcome req = MiddlewareOutcome.unsupportedEncoding) :
    handle env w req = { status := 415, body := .inr "Unsupported Media Type" } := by
  unfold handle
  rw [hb]

theorem find_route_health (req : HttpRequest) (hp : req.path = "/health") :
    findDispatchRoute req = some ("GET", "/health", healthHandler) := by
  obtain ⟨m, p, q, hs, b⟩ := req
  simp only at hp
  subst hp
  rfl

theorem find_route_root (req : HttpRequest) (hp : req.path = "/") :
    findDispatchRoute req = some ("GET", "/", rootHandler) := by
  obtain ⟨m, p, q, hs, b⟩ := req
  simp only at hp
  subst hp
  rfl

theorem find_route_testci (req : HttpRequest) (hp : req.path = "/test-ci") :
    findDispatchRoute req = some ("GET", "/test-ci", testCiHandler) := by
  obtain ⟨m, p, q, hs, b⟩ := req
  simp only at hp
  subst hp
  rfl

/-- A request path that matches none of the registered route paths (under
the router's case-insensitive, slash-tolerant matching) dispatches to no
route, for GET/HEAD and for the OPTIONS fallback alike. -/
theorem no_path_match (req : HttpRequest)
    (h1 : pathMatches "/" req.path = false)
    (h2 : pathMatches "/health" req.path = false)
    (h3 : pathMatches "/test-ci" req.path = false)
    (h4 : pathMatches "/test-docker-ecr-app-runner" req.path = false) :
    findDispatchRoute req = none ∧
    routes.any (fun r => pathMatches r.2.1 req.path) = false := by
  constructor
  · unfold findDispatchRoute
    rw [List.find?_eq_none]
    intro a ha
    fin_cases ha <;> simp [h1, h2, h3, h4]
  · simp [routes, List.any_cons, List.any_nil, h1, h2, h3, h4]

/-! ### Decimal notation round trip -/

theorem decNatChars_append_digit (xs : List Char) (c : Char) (v : Nat)
    (hc : digitVal? c = some v) :
    ∀ acc, decNatChars (xs ++ [c]) acc =
      (decNatChars xs acc).bind (fun m => some (m * 10 + v)) := by
  induction xs with
  | nil =>
      intro acc
      show (match digitVal? c with
        | some v => decNatChars [] (acc * 10 + v)
        | none => none) = _
      rw [hc]
      rfl
  | cons x xs ih =>
      intro acc
      cases hx : digitVal? x with
      | some u =>
          have hstep : decNatChars (x :: xs) acc = decNatChars xs (acc * 10 + u) := by
            show (match digitVal? x with
              | some v => decNatChars xs (acc * 10 + v)
              | none => none) = _
            rw [hx]
          have hstep2 : decNatChars (x :: xs ++ [c]) acc =
              decNatChars (xs ++ [c]) (acc * 10 + u) := by
            show (match digitVal? x with
              | some v => decNatChars (xs ++ [c]) (acc * 10 + v)
              | none => none) = _
            rw [hx]
          rw [hstep2, hstep, ih]
      | none =>
          have hstep : decNatChars (x :: xs) acc = none := by
            show (match digitVal? x with
              | some v => decNatChars xs (acc * 10 + v)
              | none => none) = none
            rw [hx]
          have hstep2 : decNatChars (x :: xs ++ [c]) acc = none := by
            show (match digitVal? x with
              | some v => decNatChars (xs ++ [c]) (acc * 10 + v)
              | none => none) = none
            rw [hx]
          rw [hstep2, hstep]
          rfl

theorem decimalChars_roundtrip (n : Nat) : decNatChars (decimalChars n) 0 = some n := by
  induction n using Nat.strong_induction_on with
  | _ n ih =>
    rw [decimalChars]
    by_cases h10 : n < 10
    · rw [if_pos h10]
      show (match digitVal? (digitChar n) with
        | some v => decNatChars [] (0 * 10 + v)
        | none => none) = some n
      rw [digitVal_digitChar]
      show some (0 * 10 + n % 10) = some n
      have e : 0 * 10 + n % 10 = n := by omega
      rw [e]
    · rw [if_neg h10]
      rw [decNatChars_append_digit _ _ _ (digitVal_digitChar (n % 10)) 0]
      rw [ih (n / 10) (Nat.div_lt_self (by omega) (by omega))]
      show some (n / 10 * 10 + n % 10 % 10) = some n
      have e : n / 10 * 10 + n % 10 % 10 = n := by omega
      rw [e]

theorem decimalChars_ne_nil (n : Nat) : decimalChars n ≠ [] := by
  rw [decimalChars]
  split <;> simp

theorem decimalNat_decimalString (n : Nat) : decimalNat? (decimalString n) = some n := by
  unfold decimalNat? decimalString
  rcases hE : decimalChars n with _ | ⟨c, l⟩
  · exact absurd hE (decimalChars_ne_nil n)
  · show decNatChars (c :: l) 0 = some n
    rw [← hE]
    exact decimalChars_roundtrip n

/-! ## Concrete fixtures -/

/-- A bare GET request: no query, no headers, no body. -/
def getReq (p : String) : HttpRequest :=
  { method := "GET", path := p, query := "", headers := [], body := "" }

/-- Headers declaring a JSON body. -/
def jsonHeaders : List (String × String) := [("content-type", "application/json")]

/-- The malformed one-character body consisting of an opening brace. -/
def openBraceBody : String := String.mk [Char.ofNat 123]

/-- The malformed one-character body consisting of an opening bracket. -/
def openBracketBody : String := String.mk [Char.ofNat 91]

/-- The malformed body of an opening brace followed by a comma. -/
def braceCommaBody : String := String.mk [Char.ofNat 123, Char.ofNat 44]

/-- An environment with neither `PORT` nor `NODE_ENV` set. -/
def defaultEnv : Env := { PORT := none, NODE_ENV := none }

/-- `isoBound` is at least 365·8030 days of milliseconds. -/
theorem isoBound_big : 253234080000000 ≤ isoBound := by
  have h := dayFromYear1970_lower 8030
  have e : (10000 : Nat) - 1970 = 8030 := by norm_num
  unfold isoBound dayFromYear msPerDay
  rw [e]
  omega

/-! ## Claims -/

/-- C1 counterexample: a GET `/health` request whose body is the malformed
JSON `{` under content-type `application/json` is answered 400 by the
`express.json()` middleware, not 200 as the claim requires of every GET
`/health` request. -/
theorem c1_counterexample :
    (handle defaultEnv ⟨0, 0⟩
      { method := "GET", path := "/health", query := "", headers := jsonHeaders,
        body := openBraceBody }).status = 400 ∧
    ¬ (handle defaultEnv ⟨0, 0⟩
      { method := "GET", path := "/health", query := "", headers := jsonHeaders,
        body := openBraceBody }).status = 200 := by
  constructor <;> decide

/-- C1 (amended): every GET `/health` request accepted by the JSON body
middleware is answered 200 with body `{"status": "ok", "uptime": u}`,
where `u` is the whole-second floor of the time elapsed since process
start, recomputed from the clock at the time of the call. -/
theorem c1_health_response (env : Env) (w : World) (req : HttpRequest)
    (hm : req.method = "GET") (hp : req.path = "/health")
    (hb : expressJsonOk req = true) (_hw : w.startMs ≤ w.nowMs) :
    handle env w req =
      { status := 200,
        body := .inl (.obj [("status", .str "ok"),
          ("uptime", .num (Int.ofNat ((w.nowMs - w.startMs) / 1000)))]) } := by
  rw [handle_matched env w req _ _ _ (outcome_of_ok req hb) (Or.inl hm)
    (find_route_health req hp)]
  rfl

theorem c1_health_response_witness :
    handle defaultEnv ⟨0, 7000⟩ (getReq "/health") =
      { status := 200,
        body := .inl (.obj [("status", .str "ok"), ("uptime", .num (Int.ofNat 7))]) } :=
  c1_health_response defaultEnv ⟨0, 7000⟩ (getReq "/health") rfl rfl (by decide) (by decide)

/-- C2 counterexample: a GET `/` request whose body is the malformed JSON
`[` under content-type `application/json` is answered 400, so the response
is not the claimed 200 regardless of accompanying body. -/
theorem c2_counterexample :
    (handle defaultEnv ⟨0, 0⟩
      { method := "GET", path := "/", query := "", headers := jsonHeaders,
        body := openBracketBody }).status = 400 ∧
    ¬ (handle defaultEnv ⟨0, 0⟩
      { method := "GET", path := "/", query := "", headers := jsonHeaders,
        body := openBracketBody }).status = 200 := by
  constructor <;> decide

/-- C2 (amended): every GET `/` request accepted by the JSON body
middleware — whatever its timing, headers, query string or remaining
body — is answered 200 with exactly `{"message": "Hello from root API"}`. -/
theorem c2_root_response (env : Env) (w : World) (req : HttpRequest)
    (hm : req.method = "GET") (hp : req.path = "/")
    (hb : expressJsonOk req = true) :
    handle env w req =
      { status := 200, body := .inl (.obj [("message", .str "Hello from root API")]) } := by
  rw [handle_matched env w req _ _ _ (outcome_of_ok req hb) (Or.inl hm)
    (find_route_root req hp)]
  rfl

theorem c2_root_response_witness :
    handle defaultEnv ⟨0, 0⟩ (getReq "/") =
      { status := 200, body := .inl (.obj [("message", .str "Hello from root API")]) } :=
  c2_root_response defaultEnv ⟨0, 0⟩ (getReq "/") rfl rfl (by decide)

/-- C3: across one process lifetime (same start instant), two accepted GET
`/health` calls whose clock instants are ordered return uptime values in
the same order: the uptime is monotonically non-decreasing (in particular
across a delay of one second or more). -/
theorem c3_uptime_monotone (env : Env) (s n1 n2 : Nat) (req1 req2 : HttpRequest)
    (hm1 : req1.method = "GET") (hp1 : req1.path = "/health") (hb1 : expressJsonOk req1 = true)
    (hm2 : req2.method = "GET") (hp2 : req2.path = "/health") (hb2 : expressJsonOk req2 = true)
    (hord : n1 ≤ n2) :
    ∃ u1 u2 : Nat,
      jsonField (handle env ⟨s, n1⟩ req1) "uptime" = some (.num (Int.ofNat u1)) ∧
      jsonField (handle env ⟨s, n2⟩ req2) "uptime" = some (.num (Int.ofNat u2)) ∧
      u1 ≤ u2 := by
  refine ⟨(n1 - s) / 1000, (n2 - s) / 1000, ?_, ?_, by omega⟩
  · rw [handle_matched env ⟨s, n1⟩ req1 _ _ _ (outcome_of_ok req1 hb1) (Or.inl hm1)
      (find_route_health req1 hp1)]
    rfl
  · rw [handle_matched env ⟨s, n2⟩ req2 _ _ _ (outcome_of_ok req2 hb2) (Or.inl hm2)
      (find_route_health req2 hp2)]
    rfl

theorem c3_uptime_monotone_witness :
    ∃ u1 u2 : Nat,
      jsonField (handle defaultEnv ⟨0, 1000⟩ (getReq "/health")) "uptime" =
        some (.num (Int.ofNat u1)) ∧
      jsonField (handle defaultEnv ⟨0, 2500⟩ (getReq "/health")) "uptime" =
        some (.num (Int.ofNat u2)) ∧
      u1 ≤ u2 :=
  c3_uptime_monotone defaultEnv 0 1000 2500 (getReq "/health") (getReq "/health")
    rfl rfl (by decide) rfl rfl (by decide) (by decide)

/-- C4 counterexample: a HEAD `/health` request — a method/path pair that
is not one of the four registered GET routes — is answered 200, because
Express dispatches HEAD to GET handlers; and a POST `/health` request with
a malformed JSON body is answered 400 by the middleware, not 404.  Both
contradict the claim's always-404/never-200 requirement. -/
theorem c4_counterexample :
    (handle defaultEnv ⟨0, 0⟩
      { method := "HEAD", path := "/health", query := "", headers := [],
        body := "" }).status = 200 ∧
    (handle defaultEnv ⟨0, 0⟩
      { method := "POST", path := "/health", query := "", headers := jsonHeaders,
        body := openBraceBody }).status = 400 ∧
    ¬ (handle defaultEnv ⟨0, 0⟩
      { method := "POST", path := "/health", query := "", headers := jsonHeaders,
        body := openBraceBody }).status = 404 := by
  refine ⟨by decide, by decide, by decide⟩

/-- C4 (amended): Express's router dispatches GET and HEAD to the
registered GET routes under case-insensitive, trailing-slash-tolerant path
matching, and answers OPTIONS on such paths itself, so those requests can
get 200.  Every request outside that dispatch — method other than
GET/HEAD/OPTIONS, or a path matching none of the four registered paths —
never gets status 200: it gets the framework's standard 404 whenever the
JSON body middleware accepts it, and the middleware's own 400/413/415
error otherwise. -/
theorem c4_unmatched_not_found (env : Env) (w : World) (req : HttpRequest)
    (h : (req.method ≠ "GET" ∧ req.method ≠ "HEAD" ∧ req.method ≠ "OPTIONS") ∨
         (pathMatches "/" req.path = false ∧ pathMatches "/health" req.path = false ∧
          pathMatches "/test-ci" req.path = false ∧
          pathMatches "/test-docker-ecr-app-runner" req.path = false)) :
    (handle env w req).status ≠ 200 ∧
    (expressJsonOk req = true →
      handle env w req = notFoundResp req ∧ (handle env w req).status = 404) := by
  have hnf : expressJsonOutcome req = MiddlewareOutcome.ok →
      handle env w req = notFoundResp req := by
    intro hb
    rcases h with ⟨hg, hh, ho⟩ | ⟨h1, h2, h3, h4⟩
    · exact handle_other_method env w req hb (beq_eq_false_iff_ne.mpr hg)
        (beq_eq_false_iff_ne.mpr hh) (beq_eq_false_iff_ne.mpr ho)
    · obtain ⟨hfind, hany⟩ := no_path_match req h1 h2 h3 h4
      cases hgb : (req.method == "GET" || req.method == "HEAD") with
      | true =>
          have hm : req.method = "GET" ∨ req.method = "HEAD" := by
            rcases Bool.or_eq_true_iff.mp hgb with hx | hx
            · exact Or.inl (eq_of_beq hx)
            · exact Or.inr (eq_of_beq hx)
          exact handle_nofind env w req hb hm hfind
      | false =>
          cases hob : (req.method == "OPTIONS") with
          | true => exact handle_options_nomatch env w req hb (eq_of_beq hob) hany
          | false =>
              have e1 : (req.method == "GET") = false := by
                cases hx : (req.method == "GET") with
                | false => rfl
                | true => rw [hx] at hgb; exact Bool.noConfusion hgb
              have e2 : (req.method == "HEAD") = false := by
                rw [e1] at hgb
                exact hgb
              exact handle_other_method env w req hb e1 e2 hob
  constructor
  · cases houtcome : expressJsonOutcome req with
    | ok =>
        rw [hnf houtcome]
        show (404 : Nat) ≠ 200
        omega
    | badJson =>
        rw [handle_badjson env w req houtcome]
        show (400 : Nat) ≠ 200
        omega
    | tooLarge =>
        rw [handle_toolarge env w req houtcome]
        show (413 : Nat) ≠ 200
        omega
    | unsupportedCharset =>
        rw [handle_unsupcharset env w req houtcome]
        show (415 : Nat) ≠ 200
        omega
    | unsupportedEncoding =>
        rw [handle_unsupencoding env w req houtcome]
        show (415 : Nat) ≠ 200
        omega
  · intro hb
    have hbo := outcome_of_ok req hb
    refine ⟨hnf hbo, ?_⟩
    rw [hnf hbo]
    rfl

theorem c4_unmatched_not_found_witness :
    (handle defaultEnv ⟨0, 0⟩ (getReq "/does-not-exist")).status ≠ 200 ∧
    (expressJsonOk (getReq "/does-not-exist") = true →
      handle defaultEnv ⟨0, 0⟩ (getReq "/does-not-exist") =
        notFoundResp (getReq "/does-not-exist") ∧
      (handle defaultEnv ⟨0, 0⟩ (getReq "/does-not-exist")).status = 404) :=
  c4_unmatched_not_found defaultEnv ⟨0, 0⟩ (getReq "/does-not-exist")
    (Or.inr ⟨by decide, by decide, by decide, by decide⟩)

/-- C5: with `PORT` unset the resolved port is the fixed default — 9001 in
`src/index.js` and the plain variants, 3000 in the TypeScript variant —
and with `PORT` set to the decimal notation of any number `n` (including
`0`) the resolved port is exactly `n`.  The resolution is a pure function
of the environment, evaluated once at module load. -/
theorem c5_port_resolution :
    resolvedPort 9001 none = some 9001 ∧
    resolvedPort 3000 none = some 3000 ∧
    (∀ dflt n : Nat, resolvedPort dflt (some (decimalString n)) = some n) := by
  refine ⟨rfl, rfl, fun dflt n => ?_⟩
  have hne : decimalString n ≠ "" := by
    unfold decimalString
    intro hc
    apply decimalChars_ne_nil n
    have h2 : (String.mk (decimalChars n)).data = ("" : String).data := by rw [hc]
    simpa using h2
  unfold resolvedPort portValue
  show listenPort (if decimalString n = "" then JsStrNum.num dflt
    else JsStrNum.str (decimalString n)) = some n
  rw [if_neg hne]
  show decimalNat? (decimalString n) = some n
  exact decimalNat_decimalString n

/-- C6 counterexample: a request with content-type `application/json` and
the non-JSON body `nope` is answered 400 — an error response other than
the standard not-found, which the claim says cannot occur. -/
theorem c6_counterexample :
    (handle defaultEnv ⟨0, 0⟩
      { method := "POST", path := "/", query := "", headers := jsonHeaders,
        body := "nope" }).status = 400 ∧
    ¬ (handle defaultEnv ⟨0, 0⟩
      { method := "POST", path := "/", query := "", headers := jsonHeaders,
        body := "nope" }).status = 404 := by
  constructor <;> decide

/-- C6 (amended): route handlers are total and never fail, and every
response's status is 200 (a dispatched route or the router's own OPTIONS
answer), 404 (the framework's standard not-found), or one of the JSON body
middleware's rejections — 400 for a malformed JSON body, 413 for a JSON
body over the 100kb limit, 415 for an unsupported charset or content
encoding — since the code does consume JSON request bodies through
`app.use(express.json())`. -/
theorem c6_response_statuses (env : Env) (w : World) (req : HttpRequest) :
    ((handle env w req).status = 200 ∧ expressJsonOutcome req = MiddlewareOutcome.ok) ∨
    ((handle env w req).status = 404 ∧ handle env w req = notFoundResp req ∧
      expressJsonOutcome req = MiddlewareOutcome.ok) ∨
    ((handle env w req).status = 400 ∧ expressJsonOutcome req = MiddlewareOutcome.badJson) ∨
    ((handle env w req).status = 413 ∧ expressJsonOutcome req = MiddlewareOutcome.tooLarge) ∨
    ((handle env w req).status = 415 ∧
      (expressJsonOutcome req = MiddlewareOutcome.unsupportedCharset ∨
       expressJsonOutcome req = MiddlewareOutcome.unsupportedEncoding)) := by
  cases hb : expressJsonOutcome req with
  | badJson =>
      right; right; left
      rw [handle_badjson env w req hb]
      exact ⟨rfl, rfl⟩
  | tooLarge =>
      right; right; right; left
      rw [handle_toolarge env w req hb]
      exact ⟨rfl, rfl⟩
  | unsupportedCharset =>
      right; right; right; right
      rw [handle_unsupcharset env w req hb]
      exact ⟨rfl, Or.inl rfl⟩
  | unsupportedEncoding =>
      right; right; right; right
      rw [handle_unsupencoding env w req hb]
      exact ⟨rfl, Or.inr rfl⟩
  | ok =>
      cases hgb : (req.method == "GET" || req.method == "HEAD") with
      | true =>
          have hm : req.method = "GET" ∨ req.method = "HEAD" := by
            rcases Bool.or_eq_true_iff.mp hgb with hx | hx
            · exact Or.inl (eq_of_beq hx)
            · exact Or.inr (eq_of_beq hx)
          cases hfind : findDispatchRoute req with
          | some r =>
              left
              obtain ⟨m, p, f⟩ := r
              rw [handle_matched env w req m p f hb hm hfind]
              exact ⟨rfl, rfl⟩
          | none =>
              right; left
              rw [handle_nofind env w req hb hm hfind]
              exact ⟨rfl, rfl, rfl⟩
      | false =>
          have e1 : (req.method == "GET") = false := by
            cases hx : (req.method == "GET") with
            | false => rfl
            | true => rw [hx] at hgb; exact Bool.noConfusion hgb
          have e2 : (req.method == "HEAD") = false := by
            rw [e1] at hgb
            exact hgb
          cases hob : (req.method == "OPTIONS") with
          | true =>
              cases hany : routes.any (fun r => pathMatches r.2.1 req.path) with
              | true =>
                  left
                  rw [handle_options_match env w req hb (eq_of_beq hob) hany]
                  exact ⟨rfl, rfl⟩
              | false =>
                  right; left
                  rw [handle_options_nomatch env w req hb (eq_of_beq hob) hany]
                  exact ⟨rfl, rfl, rfl⟩
          | false =>
              right; left
              rw [handle_other_method env w req hb e1 e2 hob]
              exact ⟨rfl, rfl, rfl⟩

/-- C7 counterexample: a GET `/test-ci` request with a malformed JSON body
is answered 400 with no JSON fields at all, so its body's message field
does not equal the fixed celebratory string as the claim requires of every
GET `/test-ci` request. -/
theorem c7_counterexample :
    (handle defaultEnv ⟨0, 0⟩
      { method := "GET", path := "/test-ci", query := "", headers := jsonHeaders,
        body := braceCommaBody }).status = 400 ∧
    jsonField (handle defaultEnv ⟨0, 0⟩
      { method := "GET", path := "/test-ci", query := "", headers := jsonHeaders,
        body := braceCommaBody }) "message" = none := by
  exact ⟨by decide, rfl⟩

/-- C7 (amended): for GET `/test-ci` requests accepted by the JSON body
middleware, the message field is the one fixed celebratory string on every
call, the timestamp field is the ISO-8601 UTC rendering of the clock at
the moment of the call (a valid timestamp: the validating parser accepts
it and recovers exactly that instant, for clocks below year 10000), and
across two calls ordered in time the denoted instants never decrease. -/
theorem c7_testci_response (env : Env) (w1 w2 : World) (req1 req2 : HttpRequest)
    (hm1 : req1.method = "GET") (hp1 : req1.path = "/test-ci") (hb1 : expressJsonOk req1 = true)
    (hm2 : req2.method = "GET") (hp2 : req2.path = "/test-ci") (hb2 : expressJsonOk req2 = true)
    (hord : w1.nowMs ≤ w2.nowMs) (hbound : w2.nowMs < isoBound) :
    jsonField (handle env w1 req1) "message" =
      some (.str "Bhai!...mai bhi deploy hogya. badhai ho bhai") ∧
    jsonField (handle env w2 req2) "message" =
      some (.str "Bhai!...mai bhi deploy hogya. badhai ho bhai") ∧
    jsonField (handle env w1 req1) "timestamp" = some (.str (toISOString w1.nowMs)) ∧
    jsonField (handle env w2 req2) "timestamp" = some (.str (toISOString w2.nowMs)) ∧
    parseISOString (toISOString w1.nowMs) = some w1.nowMs ∧
    parseISOString (toISOString w2.nowMs) = some w2.nowMs ∧
    w1.nowMs ≤ w2.nowMs := by
  have e1 := handle_matched env w1 req1 _ _ _ (outcome_of_ok req1 hb1) (Or.inl hm1)
    (find_route_testci req1 hp1)
  have e2 := handle_matched env w2 req2 _ _ _ (outcome_of_ok req2 hb2) (Or.inl hm2)
    (find_route_testci req2 hp2)
  rw [e1, e2]
  refine ⟨rfl, rfl, rfl, rfl, ?_, ?_, hord⟩
  · exact parseISO_toISO w1.nowMs (by omega)
  · exact parseISO_toISO w2.nowMs hbound

theorem c7_testci_response_witness :
    jsonField (handle defaultEnv ⟨0, 0⟩ (getReq "/test-ci")) "message" =
      some (.str "Bhai!...mai bhi deploy hogya. badhai ho bhai") ∧
    jsonField (handle defaultEnv ⟨0, 1000⟩ (getReq "/test-ci")) "message" =
      some (.str "Bhai!...mai bhi deploy hogya. badhai ho bhai") ∧
    jsonField (handle defaultEnv ⟨0, 0⟩ (getReq "/test-ci")) "timestamp" =
      some (.str (toISOString 0)) ∧
    jsonField (handle defaultEnv ⟨0, 1000⟩ (getReq "/test-ci")) "timestamp" =
      some (.str (toISOString 1000)) ∧
    parseISOString (toISOString 0) = some 0 ∧
    parseISOString (toISOString 1000) = some 1000 ∧
    (0 : Nat) ≤ 1000 :=
  c7_testci_response defaultEnv ⟨0, 0⟩ ⟨0, 1000⟩ (getReq "/test-ci") (getReq "/test-ci")
    rfl rfl (by decide) rfl rfl (by decide) (by decide)
    (lt_of_lt_of_le (by decide) isoBound_big)

/-- C8: if the socket bind fails at startup the process terminates with
the non-zero exit code 1, accepting no connection and retrying nothing;
on a successful bind it instead logs exactly two informational lines: the
port in use and the resolved environment label. -/
theorem c8_startup_contract (env : Env) :
    startup env false = .exited 1 ∧
    (∀ c : Nat, startup env false = .exited c → c ≠ 0) ∧
    acceptsRequests (startup env false) = false ∧
    startup env true =
      .listening ["Server is running on port " ++ portDisplay (portValue 9001 env.PORT),
                  "Environment: " ++ envLabel env.NODE_ENV] := by
  refine ⟨rfl, ?_, rfl, rfl⟩
  intro c hc
  have h1 : Startup.exited 1 = Startup.exited c := hc
  injection h1 with h2
  omega

theorem c8_startup_contract_witness :
    startup defaultEnv false = .exited 1 ∧ (1 : Nat) ≠ 0 :=
  ⟨(c8_startup_contract defaultEnv).1,
   (c8_startup_contract defaultEnv).2.1 1 (c8_startup_contract defaultEnv).1⟩

/-- C9: `NODE_ENV` is never exposed through any route: two environments
that differ only in `NODE_ENV` produce identical responses to every
request, and the startup outcome differs at most in its log lines. -/
theorem c9_node_env_not_exposed (env : Env) (v : Option String) (w : World)
    (req : HttpRequest) (b : Bool) :
    handle { PORT := env.PORT, NODE_ENV := v } w req = handle env w req ∧
    acceptsRequests (startup { PORT := env.PORT, NODE_ENV := v } b) =
      acceptsRequests (startup env b) := by
  refine ⟨rfl, ?_⟩
  cases b <;> rfl

/-- C10: a `PORT` variable set to the empty string is falsy in JavaScript,
so `process.env.PORT || 9001` falls back to the default exactly as when
`PORT` is unset. -/
theorem c10_empty_port_falls_back :
    portValue 9001 (some "") = portValue 9001 none ∧
    resolvedPort 9001 (some "") = some 9001 ∧
    (∀ dflt : Nat, resolvedPort dflt (some "") = resolvedPort dflt none) := by
  exact ⟨rfl, rfl, fun dflt => rfl⟩
